import Mathlib

/-!
Verification of the airtable-deno client (src/airtable.ts and its companion
type/test modules) against its natural-language specification.

The TypeScript source is shallowly embedded: the mutable `Airtable` facade
becomes a structure holding its configuration, methods become pure functions,
thrown `AirtableError`s become the `Except.error` branch, and the single
HTTP request a method would dispatch is materialised as a `Request` value.
The network transport itself (fetch, TLS) is out of scope per spec section 1.
-/

/-- Model of JavaScript `Array.prototype.join(sep)`: concatenates the list
elements with `sep` between consecutive elements, empty string for `[]`. -/
def joinSep (sep : String) : List String → String
  | [] => ""
  | [x] => x
  | x :: y :: xs => x ++ sep ++ joinSep sep (y :: xs)

/-- Model of a JavaScript object spread `{...a, ...b}` on string-keyed maps:
keys of `a` in order (with the value from `b` when `b` also has the key),
followed by the keys of `b` not present in `a`, in order. Later entries win. -/
def mergeMaps (a b : List (String × String)) : List (String × String) :=
  (a.map fun kv => (kv.1, (b.lookup kv.1).getD kv.2)) ++
    b.filter fun kv => (a.lookup kv.1).isNone

/-- Uppercase hexadecimal digit, as used by `encodeURIComponent` percent
escapes. Out-of-range input maps to a placeholder digit. -/
def hexUpper : Nat → Char
  | 0 => '0' | 1 => '1' | 2 => '2' | 3 => '3' | 4 => '4' | 5 => '5' | 6 => '6' | 7 => '7'
  | 8 => '8' | 9 => '9' | 10 => 'A' | 11 => 'B' | 12 => 'C' | 13 => 'D' | 14 => 'E' | 15 => 'F'
  | _ => '0'

/-- UTF-8 byte sequence of a character, used when percent-encoding. -/
def utf8Bytes (c : Char) : List Nat :=
  let n := c.toNat
  if n < 128 then [n]
  else if n < 2048 then [192 + n / 64, 128 + n % 64]
  else if n < 65536 then [224 + n / 4096, 128 + (n / 64) % 64, 128 + n % 64]
  else [240 + n / 262144, 128 + (n / 4096) % 64, 128 + (n / 64) % 64, 128 + n % 64]

/-- Characters left untouched by JavaScript `encodeURIComponent`:
ASCII alphanumerics and `- _ . ! ~ * ' ( )`. -/
def isUnreservedChar (c : Char) : Bool :=
  (c.toNat ≥ 65 && c.toNat ≤ 90) || (c.toNat ≥ 97 && c.toNat ≤ 122) ||
  (c.toNat ≥ 48 && c.toNat ≤ 57) ||
  c = '-' || c = '_' || c = '.' || c = '!' || c = '~' || c = '*' ||
  c = Char.ofNat 39 || c = '(' || c = ')'

/-- Percent-escape for one byte: a percent sign and two uppercase hex digits. -/
def percentByte (b : Nat) : List Char :=
  ['%', hexUpper (b / 16 % 16), hexUpper (b % 16)]

/-- Encoding of a single character under `encodeURIComponent`. -/
def encodeChar (c : Char) : List Char :=
  if isUnreservedChar c then [c] else (utf8Bytes c).flatMap percentByte

/-- Model of the JavaScript builtin `encodeURIComponent`. -/
def encodeURIComponent (s : String) : String :=
  ⟨s.data.flatMap encodeChar⟩

/-- Numeric value of a hexadecimal digit character, both cases accepted. -/
def hexVal (c : Char) : Option Nat :=
  if 48 ≤ c.toNat ∧ c.toNat ≤ 57 then some (c.toNat - 48)
  else if 65 ≤ c.toNat ∧ c.toNat ≤ 70 then some (c.toNat - 55)
  else if 97 ≤ c.toNat ∧ c.toNat ≤ 102 then some (c.toNat - 87)
  else none

/-- Percent-decoding of a character list, restricted to single-byte (ASCII)
escapes; `none` on a malformed or non-ASCII escape. This is the fragment of
the JavaScript builtin `decodeURIComponent` exercised by the repository's
tests, whose inputs are ASCII-only. -/
def decodePercentChars : List Char → Option (List Char)
  | [] => some []
  | c :: rest =>
    if c = '%' then
      match rest with
      | h1 :: h2 :: rest2 =>
        match hexVal h1, hexVal h2 with
        | some a, some b =>
          if 16 * a + b < 128 then
            match decodePercentChars rest2 with
            | some cs => some (Char.ofNat (16 * a + b) :: cs)
            | none => none
          else none
        | _, _ => none
      | _ => none
    else
      match decodePercentChars rest with
      | some cs => some (c :: cs)
      | none => none

/-- Percent-decoding of a string (ASCII escapes only), as a partial model of
the JavaScript builtin `decodeURIComponent`. -/
def decodePercentAscii (s : String) : Option String :=
  (decodePercentChars s.data).map fun cs => ⟨cs⟩

/-- JSON values. Arrays and objects are encoded as cons-chains inside the
single inductive (constructors `arrNil`/`arrCons` and `objNil`/`objCons`
wrapped by `arr`/`obj`) so that every function on `Json` is plain structural
recursion and evaluates definitionally. -/
inductive Json where
  | null : Json
  | bool : Bool → Json
  | num : Int → Json
  | str : String → Json
  | arr : Json → Json
  | arrNil : Json
  | arrCons : Json → Json → Json
  | obj : Json → Json
  | objNil : Json
  | objCons : String → Json → Json → Json
deriving DecidableEq

/-- Build a JSON array value from a list of items. -/
def Json.arrOf (xs : List Json) : Json :=
  .arr (xs.foldr .arrCons .arrNil)

/-- Build a JSON object value from an ordered list of key/value pairs
(JavaScript objects preserve insertion order). -/
def Json.objOf (kvs : List (String × Json)) : Json :=
  .obj (kvs.foldr (fun kv t => .objCons kv.1 kv.2 t) .objNil)

/-- Escape of one character inside a JSON string literal, following
`JSON.stringify`: quote, backslash and control characters are escaped,
everything else is passed through. -/
def escapeJsonChar (c : Char) : List Char :=
  if c = '"' then ['\\', '"']
  else if c = '\\' then ['\\', '\\']
  else if c = '\n' then ['\\', 'n']
  else if c = '\r' then ['\\', 'r']
  else if c = '\t' then ['\\', 't']
  else if c.toNat = 8 then ['\\', 'b']
  else if c.toNat = 12 then ['\\', 'f']
  else if c.toNat < 32 then ['\\', 'u', '0', '0', hexUpper (c.toNat / 16), hexUpper (c.toNat % 16)]
  else [c]

/-- A JSON string literal with surrounding quotes, as `JSON.stringify`
renders strings. -/
def renderJsonString (s : String) : String :=
  ⟨'"' :: (s.data.flatMap escapeJsonChar ++ ['"'])⟩

/-- Model of `JSON.stringify` on `Json` values: no whitespace, object keys in
insertion order. -/
def Json.render : Json → String
  | .null => "null"
  | .bool b => if b then "true" else "false"
  | .num n => toString n
  | .str s => renderJsonString s
  | .arr chain => "[" ++ Json.render chain ++ "]"
  | .arrNil => ""
  | .arrCons hd .arrNil => Json.render hd
  | .arrCons hd tl => Json.render hd ++ "," ++ Json.render tl
  | .obj chain => "\x7b" ++ Json.render chain ++ "\x7d"
  | .objNil => ""
  | .objCons k v .objNil => renderJsonString k ++ ":" ++ Json.render v
  | .objCons k v tl => renderJsonString k ++ ":" ++ Json.render v ++ "," ++ Json.render tl

/-- JSON whitespace. -/
def isWsChar (c : Char) : Bool :=
  c = ' ' || c = '\t' || c = '\n' || c = '\r'

/-- Drop leading JSON whitespace. -/
def skipWs : List Char → List Char
  | [] => []
  | c :: rest => if isWsChar c then skipWs rest else c :: rest

/-- Unescape of a single-character JSON escape sequence. -/
def unescapeChar (c : Char) : Option Char :=
  if c = '"' then some '"'
  else if c = '\\' then some '\\'
  else if c = '/' then some '/'
  else if c = 'b' then some (Char.ofNat 8)
  else if c = 'f' then some (Char.ofNat 12)
  else if c = 'n' then some '\n'
  else if c = 'r' then some '\r'
  else if c = 't' then some '\t'
  else none

/-- Parse the remainder of a JSON string literal (opening quote already
consumed), returning its characters and the rest of the input. Surrogate
pairing of `u`-escapes is not modelled. -/
def parseStringChars : List Char → Option (List Char × List Char)
  | [] => none
  | c :: rest =>
    if c = '"' then some ([], rest)
    else if c = '\\' then
      match rest with
      | [] => none
      | e :: rest2 =>
        if e = 'u' then
          match rest2 with
          | h1 :: h2 :: h3 :: h4 :: rest3 =>
            match hexVal h1, hexVal h2, hexVal h3, hexVal h4 with
            | some a, some b, some c2, some d =>
              match parseStringChars rest3 with
              | some (cs, rem) => some (Char.ofNat (4096 * a + 256 * b + 16 * c2 + d) :: cs, rem)
              | none => none
            | _, _, _, _ => none
          | _ => none
        else
          match unescapeChar e with
          | some u =>
            match parseStringChars rest2 with
            | some (cs, rem) => some (u :: cs, rem)
            | none => none
          | none => none
    else
      match parseStringChars rest with
      | some (cs, rem) => some (c :: cs, rem)
      | none => none

/-- Numeric value of a decimal digit character. -/
def digitVal (c : Char) : Option Nat :=
  if 48 ≤ c.toNat ∧ c.toNat ≤ 57 then some (c.toNat - 48) else none

/-- Split off a maximal run of leading decimal digits. -/
def takeDigits : List Char → List Nat × List Char
  | [] => ([], [])
  | c :: rest =>
    match digitVal c with
    | some d =>
      match takeDigits rest with
      | (ds, rem) => (d :: ds, rem)
    | none => ([], c :: rest)

/-- Decimal digits to a natural number. -/
def digitsToNat (ds : List Nat) : Nat :=
  ds.foldl (fun acc d => 10 * acc + d) 0

/-- Parse a JSON integer numeral (optional minus sign, decimal digits).
Fractional and exponent forms are rejected: the model restricts JSON numbers
to integers, which covers every payload this client constructs or the
repository's tests exercise. -/
def parseIntNumeral (cs : List Char) : Option (Int × List Char) :=
  match cs with
  | '-' :: rest =>
    match takeDigits rest with
    | ([], _) => none
    | (ds, rem) =>
      match rem with
      | c :: _ => if c = '.' || c = 'e' || c = 'E' then none else some (-(digitsToNat ds : Int), rem)
      | [] => some (-(digitsToNat ds : Int), [])
  | _ =>
    match takeDigits cs with
    | ([], _) => none
    | (ds, rem) =>
      match rem with
      | c :: _ => if c = '.' || c = 'e' || c = 'E' then none else some ((digitsToNat ds : Int), rem)
      | [] => some ((digitsToNat ds : Int), [])

/-- Parser modes: a full value, the tail of an array (after `[` and at least
one element), or the tail of an object. -/
inductive ParseMode where
  | value : ParseMode
  | arrTail : ParseMode
  | objTail : ParseMode

/-- Fuel-indexed JSON parser (structural recursion on the fuel, so concrete
runs evaluate definitionally). -/
def parseF : Nat → ParseMode → List Char → Option (Json × List Char)
  | 0, _, _ => none
  | fuel + 1, mode, cs =>
    match mode with
    | .value =>
      match skipWs cs with
      | 'n' :: 'u' :: 'l' :: 'l' :: rest => some (.null, rest)
      | 't' :: 'r' :: 'u' :: 'e' :: rest => some (.bool true, rest)
      | 'f' :: 'a' :: 'l' :: 's' :: 'e' :: rest => some (.bool false, rest)
      | '"' :: rest =>
        match parseStringChars rest with
        | some (kcs, rem) => some (.str ⟨kcs⟩, rem)
        | none => none
      | '[' :: rest =>
        (match skipWs rest with
         | ']' :: rest2 => some (.arr .arrNil, rest2)
         | cs2 =>
           match parseF fuel .arrTail cs2 with
           | some (chain, rem) => some (.arr chain, rem)
           | none => none)
      | '\x7b' :: rest =>
        (match skipWs rest with
         | '\x7d' :: rest2 => some (.obj .objNil, rest2)
         | cs2 =>
           match parseF fuel .objTail cs2 with
           | some (chain, rem) => some (.obj chain, rem)
           | none => none)
      | cs2 =>
        match parseIntNumeral cs2 with
        | some (n, rem) => some (.num n, rem)
        | none => none
    | .arrTail =>
      match parseF fuel .value cs with
      | some (v, rest) =>
        (match skipWs rest with
         | ',' :: rest2 =>
           match parseF fuel .arrTail rest2 with
           | some (chain, rem) => some (.arrCons v chain, rem)
           | none => none
         | ']' :: rest2 => some (.arrCons v .arrNil, rest2)
         | _ => none)
      | none => none
    | .objTail =>
      match skipWs cs with
      | '"' :: rest =>
        match parseStringChars rest with
        | some (kcs, rest2) =>
          (match skipWs rest2 with
           | ':' :: rest3 =>
             match parseF fuel .value rest3 with
             | some (v, rest4) =>
               (match skipWs rest4 with
                | ',' :: rest5 =>
                  match parseF fuel .objTail rest5 with
                  | some (chain, rem) => some (.objCons ⟨kcs⟩ v chain, rem)
                  | none => none
                | '\x7d' :: rest5 => some (.objCons ⟨kcs⟩ v .objNil, rest5)
                | _ => none)
             | none => none
           | _ => none)
        | none => none
      | _ => none

/-- Model of `JSON.parse`: parse one value with ample fuel and require only
whitespace to remain; `none` models the thrown `SyntaxError`. -/
def parseJson (s : String) : Option Json :=
  match parseF (2 * s.data.length + 2) .value s.data with
  | some (j, rest) => if (skipWs rest).isEmpty then some j else none
  | none => none

/-- Configuration held by the facade (`AirtableOptions` in src/types.ts): all
fields optional. `none` models an absent or `undefined` field. -/
structure AirtableOptions where
  apiKey : Option String := none
  endpointUrl : Option String := none
  baseId : Option String := none
  tableName : Option String := none
  useEnv : Option Bool := none
deriving DecidableEq

/-- Shallow right-biased merge of two configurations, modelling the object
spread `{...a, ...b}` on `AirtableOptions` literals. -/
def mergeOptions (a b : AirtableOptions) : AirtableOptions where
  apiKey := b.apiKey <|> a.apiKey
  endpointUrl := b.endpointUrl <|> a.endpointUrl
  baseId := b.baseId <|> a.baseId
  tableName := b.tableName <|> a.tableName
  useEnv := b.useEnv <|> a.useEnv

/-- The client facade (`class Airtable`, src/airtable.ts:24): it owns a
mutable configuration, which is the whole instance state. -/
structure Airtable where
  options : AirtableOptions
deriving DecidableEq

/-- Built-in defaults (src/airtable.ts:512-514): only the endpoint URL. -/
def Airtable.defaultOptions : AirtableOptions :=
  { endpointUrl := some "https://api.airtable.com/v0" }

/-- The constructor (src/airtable.ts:43-56): defaults merged below the passed
options. The environment-variable seeding branch (`useEnv`) reads an external
collaborator that is out of scope per spec sections 1 and 6; it is modelled
as providing no values, which leaves the same merge. -/
def Airtable.init (options : AirtableOptions) : Airtable :=
  ⟨mergeOptions Airtable.defaultOptions options⟩

/-- JavaScript truthiness of an optional string (`!x` fails for both
`undefined` and the empty string). -/
def truthy : Option String → Bool
  | none => false
  | some s => !s.isEmpty

/-- All four required configuration fields are present and non-empty. -/
def configValid (o : AirtableOptions) : Bool :=
  truthy o.apiKey && truthy o.endpointUrl && truthy o.baseId && truthy o.tableName

/-- The single error kind (`AirtableError` in src/error.ts): message,
optional raw diagnostic payload, optional HTTP status. -/
structure AirtableError where
  message : String
  stackObject : Option String := none
  status : Option Nat := none
deriving DecidableEq

/-- One entry of the `sort` select option: field name and optional
direction. -/
structure SortEntry where
  field : String
  direction : Option String := none
deriving DecidableEq

/-- A query option value: a scalar string, a scalar number, or the
list-of-sort-objects shape that only the `sort` key carries. -/
inductive QueryValue where
  | str : String → QueryValue
  | num : Int → QueryValue
  | sortList : List SortEntry → QueryValue
deriving DecidableEq

/-- A query option mapping in insertion order. -/
abbrev Query := List (String × QueryValue)

/-- Whether a query value is a scalar (not the sort-list shape). -/
def QueryValue.isScalar : QueryValue → Bool
  | .sortList _ => false
  | _ => true

/-- An ordinary percent-encoded `key=value` pair of the query string. -/
def encodePair (k v : String) : String :=
  encodeURIComponent k ++ "=" ++ encodeURIComponent v

/-- Modelled from the spec: the flattened indexed entries one sort object
contributes, `sort[i][field]=<field>` then, when the direction is present,
`sort[i][direction]=<direction>` (spec section 4.1). The serializer itself
(`stringify`, re-exported through src/deps.ts) is not included under src/;
its behaviour is fixed by spec section 4.1 and by the repository's own
tests. -/
def sortEntryParts (i : Nat) (e : SortEntry) : List String :=
  ("sort[" ++ toString i ++ "][field]=" ++ e.field) ::
    (match e.direction with
     | some d => ["sort[" ++ toString i ++ "][direction]=" ++ d]
     | none => [])

/-- Modelled from the spec: all sort entries of a sort list, flattened with
0-based indices in list order (spec section 4.1). -/
def sortFlatten (es : List SortEntry) : List String :=
  es.enum.flatMap fun p => sortEntryParts p.1 p.2

/-- Modelled from the spec: the sort-list contribution of one query entry
(nothing for scalars). -/
def sortPart : String × QueryValue → List String
  | (_, .sortList es) => sortFlatten es
  | _ => []

/-- Modelled from the spec: the scalar contribution of one query entry
(nothing for the sort list, which is emitted separately and first). -/
def scalarPart : String × QueryValue → List String
  | (k, .str s) => [encodePair k s]
  | (k, .num n) => [encodePair k (toString n)]
  | (_, .sortList _) => []

/-- Modelled from the spec: the `&`-separated parts of the query string, sort
entries first (flattened and indexed), then the remaining scalar parameters
in supplied order (spec section 4.1). -/
def queryParts (q : Query) : List String :=
  q.flatMap sortPart ++ q.flatMap scalarPart

/-- Modelled from the spec: the query serializer `stringify` (re-exported
through src/deps.ts, implementation not included under src/), per spec
section 4.1 and the repository's tests. -/
def stringify (q : Query) : String :=
  joinSep "&" (queryParts q)

/-- Modelled from the spec: `hasAnyKey` (src/utils.ts, not included under
src/) guards the query-marker segments in `getRequestUrl`; per spec section
4.2 the marker is appended only when the serializer produces a non-empty
string, and the repository's tests confirm that a mapping whose only key is
an empty sort list yields no marker. -/
def hasAnyKey (q : Query) : Bool :=
  !(stringify q).isEmpty

/-- URL building (src/airtable.ts:417-452): validate the four required
configuration fields in fixed order, then join endpoint, base id,
percent-encoded table name, the extra path segments, and, when the query
mapping contributes anything, a literal `?` segment and the serialized query
string, all with `/`. -/
def Airtable.getRequestUrl (a : Airtable) (query : Query) (segments : List String) :
    Except AirtableError String :=
  let o := a.options
  if !truthy o.apiKey then
    .error { message := "An API key is required to connect to Airtable" }
  else if !truthy o.endpointUrl then
    .error { message := "Endpoint URL is not defined" }
  else if !truthy o.baseId then
    .error { message := "Base ID is not defined" }
  else if !truthy o.tableName then
    .error { message := "Table Name is not defined" }
  else
    .ok (joinSep "/"
      ([o.endpointUrl.getD "", o.baseId.getD "", encodeURIComponent (o.tableName.getD "")]
        ++ segments
        ++ (if hasAnyKey query then ["?", stringify query] else [])))

/-- The HTTP request an operation dispatches: URL, method, the caller-side
headers it passes to the dispatcher, and an optional body. `fetch` defaults
the method to GET. -/
structure Request where
  url : String
  method : String := "GET"
  headers : List (String × String) := []
  body : Option String := none
deriving DecidableEq

/-- The requests an operation dispatches: none when URL building failed,
exactly the one built request otherwise. -/
def requestsOf : Except AirtableError Request → List Request
  | .error _ => []
  | .ok r => [r]

/-- JavaScript template-literal rendering of an optional string
(`undefined` interpolates as the text "undefined"). -/
def templateOpt : Option String → String
  | some s => s
  | none => "undefined"

/-- The authorization header map (src/airtable.ts:411-415). -/
def Airtable.getAuthHeader (a : Airtable) : List (String × String) :=
  [("Authorization", "Bearer " ++ templateOpt a.options.apiKey)]

/-- The headers the dispatcher hands to `fetch` (src/airtable.ts:461-464):
the spread `{...getAuthHeader(), ...headers}`, authorization first,
caller-supplied headers second, later entries winning. -/
def Airtable.dispatchHeaders (a : Airtable) (headers : List (String × String)) :
    List (String × String) :=
  mergeMaps a.getAuthHeader headers

/-- A completed HTTP exchange as seen by the dispatcher: status code, status
text, and the raw body text. -/
structure HttpResponse where
  status : Nat
  statusText : String
  bodyText : String

/-- Model of the `Response.ok` flag of `fetch`: status in 200-299. -/
def HttpResponse.isOk (r : HttpResponse) : Bool :=
  200 ≤ r.status && r.status ≤ 299

/-- Response classification of `Airtable.request` (src/airtable.ts:466-474):
a non-ok response raises an `AirtableError` with message
`"<status> <statusText>"`, the raw body text as diagnostic payload and the
numeric status; an ok response has its body parsed as JSON and returned
without validation (`none` inside `ok` models the `SyntaxError` that
`response.json()` raises on a malformed body). The network call itself is
out of scope per spec section 1. -/
def handleResponse (r : HttpResponse) : Except AirtableError (Option Json) :=
  if r.isOk then
    .ok (parseJson r.bodyText)
  else
    .error { message := toString r.status ++ " " ++ r.statusText,
             stackObject := some r.bodyText,
             status := some r.status }

/-- Record creation/update options (`RecordOptions` in src/types.ts). -/
structure RecordOptions where
  typecast : Option Bool := none
deriving DecidableEq

/-- The JSON object entries a spread `...options` contributes. -/
def RecordOptions.jsonFields (o : RecordOptions) : List (String × Json) :=
  match o.typecast with
  | some b => [("typecast", Json.bool b)]
  | none => []

/-- An open field mapping (`FieldSet` in src/types.ts) in insertion order. -/
abbrev FieldMap := List (String × Json)

/-- The header map of `jsonRequest` (src/airtable.ts:477-487): the spread
`{...headers, "Content-Type": "application/json"}`. -/
def jsonHeaders (headers : List (String × String)) : List (String × String) :=
  mergeMaps headers [("Content-Type", "application/json")]

/-- The request built by `jsonRequest` (src/airtable.ts:477-487): JSON
content type and the `JSON.stringify`-serialized body. -/
def jsonRequest (url method : String) (headers : List (String × String)) (jsonBody : Json) :
    Request :=
  { url := url, method := method, headers := jsonHeaders headers,
    body := some jsonBody.render }

/-- `select` (src/airtable.ts:122-128): GET on the table URL with the select
options as query mapping. -/
def Airtable.select (a : Airtable) (options : Query) : Except AirtableError Request :=
  (a.getRequestUrl options []).map fun url => { url := url }

/-- `find` (src/airtable.ts:143-147): GET with the record id as extra path
segment. -/
def Airtable.find (a : Airtable) (id : String) : Except AirtableError Request :=
  (a.getRequestUrl [] [id]).map fun url => { url := url }

/-- The single-record arm of `create` (src/airtable.ts:194-211): POST with
body `{fields: data, ...options}`. -/
def Airtable.createOne (a : Airtable) (data : FieldMap) (options : RecordOptions) :
    Except AirtableError Request :=
  (a.getRequestUrl [] []).map fun url =>
    jsonRequest url "POST" [] (Json.objOf (("fields", Json.objOf data) :: options.jsonFields))

/-- The list arm of `create` (src/airtable.ts:194-211): POST with body
`{records: data.map(fields => ({fields})), ...options}`. -/
def Airtable.createMany (a : Airtable) (data : List FieldMap) (options : RecordOptions) :
    Except AirtableError Request :=
  (a.getRequestUrl [] []).map fun url =>
    jsonRequest url "POST" []
      (Json.objOf
        (("records", Json.arrOf (data.map fun fields => Json.objOf [("fields", Json.objOf fields)]))
          :: options.jsonFields))

/-- A table record as the caller supplies it to batch update/replace
(`TableRecord` in src/types.ts). -/
structure TableRecord where
  id : String
  fields : FieldMap
  createdTime : Option String := none

/-- JSON shape of a table record in a batch body. -/
def TableRecord.toJson (r : TableRecord) : Json :=
  Json.objOf (("id", Json.str r.id) :: ("fields", Json.objOf r.fields) ::
    (match r.createdTime with
     | some t => [("createdTime", Json.str t)]
     | none => []))

/-- `updateOrReplace` (src/airtable.ts:489-510): PATCH or PUT, the id as path
segment when present, body `{...data, ...options}`. -/
def Airtable.updateOrReplace (a : Airtable) (id : Option String) (data : List (String × Json))
    (options : RecordOptions) (replace : Bool) : Except AirtableError Request :=
  let method := if replace then "PUT" else "PATCH"
  match id with
  | some i =>
    (a.getRequestUrl [] [i]).map fun url =>
      jsonRequest url method [] (Json.objOf (data ++ options.jsonFields))
  | none =>
    (a.getRequestUrl [] []).map fun url =>
      jsonRequest url method [] (Json.objOf (data ++ options.jsonFields))

/-- The single-record arm of `update` (src/airtable.ts:266-288). -/
def Airtable.updateOne (a : Airtable) (id : String) (record : FieldMap)
    (options : RecordOptions) : Except AirtableError Request :=
  a.updateOrReplace (some id) [("fields", Json.objOf record)] options false

/-- The batch arm of `update` (src/airtable.ts:266-288). -/
def Airtable.updateMany (a : Airtable) (records : List TableRecord)
    (options : RecordOptions) : Except AirtableError Request :=
  a.updateOrReplace none [("records", Json.arrOf (records.map TableRecord.toJson))] options false

/-- The single-record arm of `replace` (src/airtable.ts:343-365). -/
def Airtable.replaceOne (a : Airtable) (id : String) (record : FieldMap)
    (options : RecordOptions) : Except AirtableError Request :=
  a.updateOrReplace (some id) [("fields", Json.objOf record)] options true

/-- The batch arm of `replace` (src/airtable.ts:343-365). -/
def Airtable.replaceMany (a : Airtable) (records : List TableRecord)
    (options : RecordOptions) : Except AirtableError Request :=
  a.updateOrReplace none [("records", Json.arrOf (records.map TableRecord.toJson))] options true

/-- The single-id arm of `delete` (src/airtable.ts:396-409): DELETE with the
id as path segment, form-urlencoded content type, no body. -/
def Airtable.deleteOne (a : Airtable) (id : String) : Except AirtableError Request :=
  (a.getRequestUrl [] [id]).map fun url =>
    { url := url, method := "DELETE",
      headers := [("Content-Type", "application/x-www-form-urlencoded")] }

/-- The list arm of `delete` (src/airtable.ts:396-409): DELETE with the empty
string as path segment, form-urlencoded content type, and the ids joined as
`records[]=<id>&...` in the body. -/
def Airtable.deleteMany (a : Airtable) (ids : List String) : Except AirtableError Request :=
  (a.getRequestUrl [] [""]).map fun url =>
    { url := url, method := "DELETE",
      headers := [("Content-Type", "application/x-www-form-urlencoded")],
      body := some (joinSep "&" (ids.map fun id => "records[]=" ++ id)) }

/-- Observable effect of one facade method call: the state of the instance
it was called on afterwards, the instance it returned, and the requests it
dispatched. -/
structure MethodCall where
  selfAfter : Airtable
  returned : Airtable
  issued : List Request
deriving DecidableEq

/-- `configure` (src/airtable.ts:73-76): shallow-merges into the held
configuration in place and returns the same instance; no network. -/
def Airtable.configure (a : Airtable) (options : AirtableOptions) : MethodCall :=
  let merged : Airtable := ⟨mergeOptions a.options options⟩
  { selfAfter := merged, returned := merged, issued := [] }

/-- `base` (src/airtable.ts:90-92): leaves the instance unchanged and
returns `new Airtable({...this.#options, baseId})`; no network. -/
def Airtable.base (a : Airtable) (baseId : String) : MethodCall :=
  { selfAfter := a,
    returned := Airtable.init (mergeOptions a.options { baseId := some baseId }),
    issued := [] }

/-- `table` (src/airtable.ts:106-108): leaves the instance unchanged and
returns `new Airtable({...this.#options, tableName})`; no network. -/
def Airtable.table (a : Airtable) (tableName : String) : MethodCall :=
  { selfAfter := a,
    returned := Airtable.init (mergeOptions a.options { tableName := some tableName }),
    issued := [] }

/-- Helper: with a valid configuration, `getRequestUrl` succeeds and returns
the slash-joined segments. -/
theorem getRequestUrl_valid (o : AirtableOptions) (h : configValid o = true)
    (q : Query) (segs : List String) :
    Airtable.getRequestUrl ⟨o⟩ q segs = .ok (joinSep "/"
      ([o.endpointUrl.getD "", o.baseId.getD "", encodeURIComponent (o.tableName.getD "")]
        ++ segs ++ (if hasAnyKey q then ["?", stringify q] else []))) := by
  have h' := h
  simp only [configValid, Bool.and_eq_true] at h'
  obtain ⟨⟨⟨hA, hE⟩, hB⟩, hT⟩ := h'
  simp [Airtable.getRequestUrl, hA, hE, hB, hT]

/-- C1: whenever one of the four required configuration fields is missing or
empty, `getRequestUrl` fails with an `AirtableError` whose message names the
first missing field in the fixed order apiKey, endpointUrl, baseId,
tableName, carrying no diagnostic payload and no HTTP status; and every
operation dispatches no request. -/
theorem C1_config_error_first_missing
    (o : AirtableOptions) (q : Query) (segs : List String) (id : String)
    (ids : List String) (data : List FieldMap) (fm : FieldMap)
    (recs : List TableRecord) (ropts : RecordOptions)
    (h : configValid o = false) :
    Airtable.getRequestUrl ⟨o⟩ q segs = .error
      { message :=
          if truthy o.apiKey = false then "An API key is required to connect to Airtable"
          else if truthy o.endpointUrl = false then "Endpoint URL is not defined"
          else if truthy o.baseId = false then "Base ID is not defined"
          else "Table Name is not defined",
        stackObject := none, status := none } ∧
    requestsOf (Airtable.select ⟨o⟩ q) = [] ∧
    requestsOf (Airtable.find ⟨o⟩ id) = [] ∧
    requestsOf (Airtable.createOne ⟨o⟩ fm ropts) = [] ∧
    requestsOf (Airtable.createMany ⟨o⟩ data ropts) = [] ∧
    requestsOf (Airtable.updateOne ⟨o⟩ id fm ropts) = [] ∧
    requestsOf (Airtable.updateMany ⟨o⟩ recs ropts) = [] ∧
    requestsOf (Airtable.replaceOne ⟨o⟩ id fm ropts) = [] ∧
    requestsOf (Airtable.replaceMany ⟨o⟩ recs ropts) = [] ∧
    requestsOf (Airtable.deleteOne ⟨o⟩ id) = [] ∧
    requestsOf (Airtable.deleteMany ⟨o⟩ ids) = [] := by
  have herr : ∀ (q' : Query) (segs' : List String),
      Airtable.getRequestUrl ⟨o⟩ q' segs' = .error
        { message :=
            if truthy o.apiKey = false then "An API key is required to connect to Airtable"
            else if truthy o.endpointUrl = false then "Endpoint URL is not defined"
            else if truthy o.baseId = false then "Base ID is not defined"
            else "Table Name is not defined",
          stackObject := none, status := none } := by
    intro q' segs'
    cases hA : truthy o.apiKey with
    | false => simp [Airtable.getRequestUrl, hA]
    | true =>
      cases hE : truthy o.endpointUrl with
      | false => simp [Airtable.getRequestUrl, hA, hE]
      | true =>
        cases hB : truthy o.baseId with
        | false => simp [Airtable.getRequestUrl, hA, hE, hB]
        | true =>
          cases hT : truthy o.tableName with
          | false => simp [Airtable.getRequestUrl, hA, hE, hB, hT]
          | true => simp [configValid, hA, hE, hB, hT] at h
  refine ⟨herr q segs, ?_, ?_, ?_, ?_, ?_, ?_, ?_, ?_, ?_, ?_⟩ <;>
    simp [Airtable.select, Airtable.find, Airtable.createOne, Airtable.createMany,
      Airtable.updateOne, Airtable.updateMany, Airtable.replaceOne, Airtable.replaceMany,
      Airtable.updateOrReplace, Airtable.deleteOne, Airtable.deleteMany,
      herr, requestsOf, Except.map]

/-- Witness for C1 at a concrete configuration missing the endpoint URL, the
base id and the table name at once: only the first missing field in the
fixed order (the endpoint URL) is reported. -/
theorem C1_config_error_first_missing_witness :
    configValid { apiKey := some "k" } = false ∧
    Airtable.getRequestUrl ⟨{ apiKey := some "k" }⟩ [] [] =
      .error { message := "Endpoint URL is not defined", stackObject := none, status := none } :=
  ⟨rfl,
    (C1_config_error_first_missing { apiKey := some "k" } [] [] "" [] [] [] [] {} rfl).1⟩

/-- C2: a response outside the HTTP success range fails with a single
`AirtableError` whose message is `"<status> <statusText>"`, whose status is
the numeric response status, and whose diagnostic payload is the raw body
text, not parsed as JSON; a response in the success range has its body
parsed as JSON and returned with no validation against the declared type. -/
theorem C2_response_classification (r : HttpResponse) :
    (¬(200 ≤ r.status ∧ r.status ≤ 299) →
      handleResponse r = .error
        { message := toString r.status ++ " " ++ r.statusText,
          stackObject := some r.bodyText, status := some r.status }) ∧
    ((200 ≤ r.status ∧ r.status ≤ 299) →
      handleResponse r = .ok (parseJson r.bodyText)) := by
  constructor
  · intro h
    simp only [handleResponse, HttpResponse.isOk, Bool.and_eq_true, decide_eq_true_eq]
    rw [if_neg h]
  · intro h
    simp only [handleResponse, HttpResponse.isOk, Bool.and_eq_true, decide_eq_true_eq]
    rw [if_pos h]

/-- Witness for C2: a concrete 404 response with a non-JSON body produces
the error `404 Not Found` carrying status 404 and the raw body text, and a
concrete 200 response has its body parsed as JSON. -/
theorem C2_response_classification_witness :
    (¬(200 ≤ 404 ∧ 404 ≤ 299)) ∧
    handleResponse ⟨404, "Not Found", "oops not json"⟩ =
      .error { message := "404 Not Found", stackObject := some "oops not json",
               status := some 404 } ∧
    (200 ≤ 200 ∧ 200 ≤ 299) ∧
    handleResponse ⟨200, "OK", "\x7b\"id\":\"rec1\",\"deleted\":true\x7d"⟩ =
      .ok (some (Json.objOf [("id", Json.str "rec1"), ("deleted", Json.bool true)])) :=
  ⟨by decide,
    (C2_response_classification ⟨404, "Not Found", "oops not json"⟩).1 (by decide),
    by decide,
    (C2_response_classification ⟨200, "OK", "\x7b\"id\":\"rec1\",\"deleted\":true\x7d"⟩).2
      (by decide)⟩

/-- C3 (evaluation at the failing input): for the configuration
`{apiKey:"k", endpointUrl:"https://api.airtable.com/v0", baseId:"appX",
tableName:"Humans"}` and the query mapping
`{filterByFormula: "{Age}='27'"}`, the code joins the literal `?` as its own
`/`-separated segment, so the built URL percent-decodes to
`.../Humans/?/filterByFormula={Age}='27'` and not to the
`.../Humans?filterByFormula={Age}='27'` asserted by the claim and by the
repository's own tests. -/
theorem C3_query_marker_joined_with_slashes :
    Airtable.getRequestUrl
        ⟨{ apiKey := some "k", endpointUrl := some "https://api.airtable.com/v0",
           baseId := some "appX", tableName := some "Humans" }⟩
        [("filterByFormula", QueryValue.str "\x7bAge\x7d=\x2727\x27")] [] =
      .ok "https://api.airtable.com/v0/appX/Humans/?/filterByFormula=%7BAge%7D%3D\x2727\x27" ∧
    decodePercentAscii
        "https://api.airtable.com/v0/appX/Humans/?/filterByFormula=%7BAge%7D%3D\x2727\x27" =
      some "https://api.airtable.com/v0/appX/Humans/?/filterByFormula=\x7bAge\x7d=\x2727\x27" ∧
    ("https://api.airtable.com/v0/appX/Humans/?/filterByFormula=\x7bAge\x7d=\x2727\x27" : String) ≠
      "https://api.airtable.com/v0/appX/Humans?filterByFormula=\x7bAge\x7d=\x2727\x27" :=
  ⟨rfl, rfl, by decide⟩

/-- Counterexample to C4 as stated: `base` does not amend the configuration
of the instance it is called on; at a concrete instance with base id "app1",
after calling `.base "app2"` the original instance still holds "app1" while
the merged configuration lives in a freshly constructed instance. -/
theorem C4_base_counterexample :
    ((Airtable.init { apiKey := some "k", baseId := some "app1", tableName := some "T" }).base
        "app2").selfAfter =
      Airtable.init { apiKey := some "k", baseId := some "app1", tableName := some "T" } ∧
    ((Airtable.init { apiKey := some "k", baseId := some "app1", tableName := some "T" }).base
        "app2").selfAfter.options.baseId = some "app1" ∧
    ((Airtable.init { apiKey := some "k", baseId := some "app1", tableName := some "T" }).base
        "app2").returned.options.baseId = some "app2" ∧
    ((Airtable.init { apiKey := some "k", baseId := some "app1", tableName := some "T" }).base
        "app2").returned ≠
      ((Airtable.init { apiKey := some "k", baseId := some "app1", tableName := some "T" }).base
        "app2").selfAfter :=
  ⟨rfl, rfl, rfl, by decide⟩

/-- C4 as amended: `configure` shallow-merges into the held configuration in
place and returns the same instance, while `base` and `table` leave the
instance they are called on unchanged and instead return a freshly
constructed facade whose configuration is the shallow merge of the held
configuration with the new base id or table name; none of the three
dispatches a request. -/
theorem C4_reconfigure_ops (a : Airtable) (o : AirtableOptions) (b t : String) :
    (a.configure o).selfAfter = ⟨mergeOptions a.options o⟩ ∧
    (a.configure o).returned = (a.configure o).selfAfter ∧
    (a.configure o).issued = [] ∧
    (a.base b).selfAfter = a ∧
    (a.base b).returned = Airtable.init (mergeOptions a.options { baseId := some b }) ∧
    (a.base b).issued = [] ∧
    (a.table t).selfAfter = a ∧
    (a.table t).returned = Airtable.init (mergeOptions a.options { tableName := some t }) ∧
    (a.table t).issued = [] :=
  ⟨rfl, rfl, rfl, rfl, rfl, rfl, rfl, rfl, rfl⟩

/-- Helper: a query list all of whose values are scalars contributes no sort
parts. -/
theorem flatMap_sortPart_eq_nil (l : Query)
    (hl : ∀ kv ∈ l, QueryValue.isScalar kv.2 = true) :
    l.flatMap sortPart = [] := by
  induction l with
  | nil => rfl
  | cons x xs ih =>
    have hx : sortPart x = [] := by
      have hsc := hl x (by simp)
      obtain ⟨k, v⟩ := x
      cases v with
      | str s => rfl
      | num n => rfl
      | sortList es => simp [QueryValue.isScalar] at hsc
    simp [List.flatMap_cons, hx, ih fun kv hkv => hl kv (by simp [hkv])]

/-- C5: with a sort list present among otherwise scalar parameters, the
serialized query string consists of the flattened indexed sort entries
(`sort[i][field]=<field>` then, when present, `sort[i][direction]=<dir>`,
for each 0-based index i in list order) followed by all scalar parameters in
supplied order — every sort entry precedes every scalar parameter. -/
theorem C5_sort_entries_first (pre post : Query) (es : List SortEntry)
    (hpre : ∀ kv ∈ pre, QueryValue.isScalar kv.2 = true)
    (hpost : ∀ kv ∈ post, QueryValue.isScalar kv.2 = true) :
    stringify (pre ++ ("sort", QueryValue.sortList es) :: post) =
      joinSep "&" (sortFlatten es ++ pre.flatMap scalarPart ++ post.flatMap scalarPart) := by
  simp [stringify, queryParts, List.flatMap_append, List.flatMap_cons,
    flatMap_sortPart_eq_nil pre hpre, flatMap_sortPart_eq_nil post hpost,
    sortPart, scalarPart]

set_option maxRecDepth 4000 in
/-- Witness for C5: the repository's own mixed-query test input, and the
sort list alone; both serialize to the exact strings the claim and the tests
state, with all sort entries first. -/
theorem C5_sort_entries_first_witness :
    (∀ kv ∈ ([("filterByFormula", QueryValue.str "\x7bAge\x7d=\x2727\x27"),
              ("maxRecords", QueryValue.str "50")] : Query),
      QueryValue.isScalar kv.2 = true) ∧
    (∀ kv ∈ ([("pageSize", QueryValue.num 30)] : Query), QueryValue.isScalar kv.2 = true) ∧
    stringify
        [("filterByFormula", QueryValue.str "\x7bAge\x7d=\x2727\x27"),
         ("maxRecords", QueryValue.str "50"),
         ("sort", QueryValue.sortList [⟨"Name", some "asc"⟩, ⟨"Age", some "desc"⟩]),
         ("pageSize", QueryValue.num 30)] =
      "sort[0][field]=Name&sort[0][direction]=asc&sort[1][field]=Age&sort[1][direction]=desc&filterByFormula=%7BAge%7D%3D\x2727\x27&maxRecords=50&pageSize=30" ∧
    stringify [("sort", QueryValue.sortList [⟨"Name", some "asc"⟩, ⟨"Age", some "desc"⟩])] =
      "sort[0][field]=Name&sort[0][direction]=asc&sort[1][field]=Age&sort[1][direction]=desc" := by
  refine ⟨by decide, by decide, ?_, ?_⟩
  · exact (C5_sort_entries_first
      [("filterByFormula", QueryValue.str "\x7bAge\x7d=\x2727\x27"),
       ("maxRecords", QueryValue.str "50")]
      [("pageSize", QueryValue.num 30)]
      [⟨"Name", some "asc"⟩, ⟨"Age", some "desc"⟩] (by decide) (by decide)).trans (by decide)
  · exact (C5_sort_entries_first [] []
      [⟨"Name", some "asc"⟩, ⟨"Age", some "desc"⟩] (by decide) (by decide)).trans (by decide)

/-- C6: an empty sort list contributes nothing: erasing an empty-sort entry
from any query mapping leaves the serialized query string unchanged, the
built URL is the same as without that entry, and for a mapping whose only
key is an empty sort list the built URL equals the bare table URL with no
query marker (the repository's own test input). -/
theorem C6_empty_sort_contributes_nothing (q1 q2 : Query) (a : Airtable) (segs : List String) :
    stringify (q1 ++ ("sort", QueryValue.sortList []) :: q2) = stringify (q1 ++ q2) ∧
    Airtable.getRequestUrl a (q1 ++ ("sort", QueryValue.sortList []) :: q2) segs =
      Airtable.getRequestUrl a (q1 ++ q2) segs ∧
    Airtable.getRequestUrl
        ⟨{ apiKey := some "keyXXXXXXXXXXXXXX", endpointUrl := some "https://api.airtable.com/v0",
           baseId := some "appXXXXXXXXXXXXXX", tableName := some "Humans" }⟩
        [("sort", QueryValue.sortList [])] [] =
      .ok "https://api.airtable.com/v0/appXXXXXXXXXXXXXX/Humans" := by
  have hs : stringify (q1 ++ ("sort", QueryValue.sortList []) :: q2) = stringify (q1 ++ q2) := by
    simp [stringify, queryParts, List.flatMap_append, List.flatMap_cons, sortPart, scalarPart,
      sortFlatten]
  refine ⟨hs, ?_, rfl⟩
  simp [Airtable.getRequestUrl, hasAnyKey, hs]

/-- C7: `create` with a list of field maps issues exactly one POST to the
bare table URL (no extra path segment), with Content-Type application/json,
whose body is the JSON serialization of
`{records: [{fields: m} for each m], ...options}`. -/
theorem C7_create_many_request (o : AirtableOptions) (data : List FieldMap)
    (options : RecordOptions) (h : configValid o = true) :
    Airtable.createMany ⟨o⟩ data options = .ok
      { url := joinSep "/" [o.endpointUrl.getD "", o.baseId.getD "",
          encodeURIComponent (o.tableName.getD "")],
        method := "POST",
        headers := [("Content-Type", "application/json")],
        body := some (Json.objOf
          (("records",
            Json.arrOf (data.map fun fields => Json.objOf [("fields", Json.objOf fields)]))
            :: options.jsonFields)).render } ∧
    (requestsOf (Airtable.createMany ⟨o⟩ data options)).length = 1 := by
  have hmain : Airtable.createMany ⟨o⟩ data options = .ok
      { url := joinSep "/" [o.endpointUrl.getD "", o.baseId.getD "",
          encodeURIComponent (o.tableName.getD "")],
        method := "POST",
        headers := [("Content-Type", "application/json")],
        body := some (Json.objOf
          (("records",
            Json.arrOf (data.map fun fields => Json.objOf [("fields", Json.objOf fields)]))
            :: options.jsonFields)).render } := by
    unfold Airtable.createMany
    rw [getRequestUrl_valid o h [] []]
    rfl
  exact ⟨hmain, by simp [hmain, requestsOf]⟩

/-- Witness for C7: the repository's example pair of field maps produces the
body `{"records":[{"fields":{"Name":"Foo","Age":20}},{"fields":{"Name":"Bar","Age":15}}]}`
on a single POST to the table URL. -/
theorem C7_create_many_request_witness :
    configValid { apiKey := some "keyXXXXXXXXXXXXXX",
                  endpointUrl := some "https://api.airtable.com/v0",
                  baseId := some "appXXXXXXXXXXXXXX", tableName := some "Humans" } = true ∧
    Airtable.createMany
        ⟨{ apiKey := some "keyXXXXXXXXXXXXXX", endpointUrl := some "https://api.airtable.com/v0",
           baseId := some "appXXXXXXXXXXXXXX", tableName := some "Humans" }⟩
        [[("Name", Json.str "Foo"), ("Age", Json.num 20)],
         [("Name", Json.str "Bar"), ("Age", Json.num 15)]] {} =
      .ok { url := "https://api.airtable.com/v0/appXXXXXXXXXXXXXX/Humans",
            method := "POST",
            headers := [("Content-Type", "application/json")],
            body := some "\x7b\"records\":[\x7b\"fields\":\x7b\"Name\":\"Foo\",\"Age\":20\x7d\x7d,\x7b\"fields\":\x7b\"Name\":\"Bar\",\"Age\":15\x7d\x7d]\x7d" } :=
  ⟨rfl,
    (C7_create_many_request
      { apiKey := some "keyXXXXXXXXXXXXXX", endpointUrl := some "https://api.airtable.com/v0",
        baseId := some "appXXXXXXXXXXXXXX", tableName := some "Humans" }
      [[("Name", Json.str "Foo"), ("Age", Json.num 20)],
       [("Name", Json.str "Bar"), ("Age", Json.num 15)]] {} rfl).1⟩

/-- C8: `delete` with a single id issues one DELETE with form-urlencoded
content type, no body, and the id as the URL path segment; `delete` with a
list of ids issues one DELETE with the same content type, the empty string
as path segment, and body `records[]=<id>` entries in list order joined with
`&`. -/
theorem C8_delete_request_shapes (o : AirtableOptions) (id : String) (ids : List String)
    (h : configValid o = true) :
    Airtable.deleteOne ⟨o⟩ id = .ok
      { url := joinSep "/" [o.endpointUrl.getD "", o.baseId.getD "",
          encodeURIComponent (o.tableName.getD ""), id],
        method := "DELETE",
        headers := [("Content-Type", "application/x-www-form-urlencoded")],
        body := none } ∧
    Airtable.deleteMany ⟨o⟩ ids = .ok
      { url := joinSep "/" [o.endpointUrl.getD "", o.baseId.getD "",
          encodeURIComponent (o.tableName.getD ""), ""],
        method := "DELETE",
        headers := [("Content-Type", "application/x-www-form-urlencoded")],
        body := some (joinSep "&" (ids.map fun i => "records[]=" ++ i)) } := by
  constructor
  · unfold Airtable.deleteOne
    rw [getRequestUrl_valid o h [] [id]]
    rfl
  · unfold Airtable.deleteMany
    rw [getRequestUrl_valid o h [] [""]]
    rfl

/-- Witness for C8 at the repository's example configuration: a single
delete targets `.../Humans/recXXXXXXXXXXXXXX` with no body, and a bulk
delete of two ids targets `.../Humans/` with body
`records[]=rec1&records[]=rec2`. -/
theorem C8_delete_request_shapes_witness :
    configValid { apiKey := some "keyXXXXXXXXXXXXXX",
                  endpointUrl := some "https://api.airtable.com/v0",
                  baseId := some "appXXXXXXXXXXXXXX", tableName := some "Humans" } = true ∧
    Airtable.deleteOne
        ⟨{ apiKey := some "keyXXXXXXXXXXXXXX", endpointUrl := some "https://api.airtable.com/v0",
           baseId := some "appXXXXXXXXXXXXXX", tableName := some "Humans" }⟩
        "recXXXXXXXXXXXXXX" =
      .ok { url := "https://api.airtable.com/v0/appXXXXXXXXXXXXXX/Humans/recXXXXXXXXXXXXXX",
            method := "DELETE",
            headers := [("Content-Type", "application/x-www-form-urlencoded")],
            body := none } ∧
    Airtable.deleteMany
        ⟨{ apiKey := some "keyXXXXXXXXXXXXXX", endpointUrl := some "https://api.airtable.com/v0",
           baseId := some "appXXXXXXXXXXXXXX", tableName := some "Humans" }⟩
        ["rec1", "rec2"] =
      .ok { url := "https://api.airtable.com/v0/appXXXXXXXXXXXXXX/Humans/",
            method := "DELETE",
            headers := [("Content-Type", "application/x-www-form-urlencoded")],
            body := some "records[]=rec1&records[]=rec2" } :=
  ⟨rfl,
    (C8_delete_request_shapes
      { apiKey := some "keyXXXXXXXXXXXXXX", endpointUrl := some "https://api.airtable.com/v0",
        baseId := some "appXXXXXXXXXXXXXX", tableName := some "Humans" }
      "recXXXXXXXXXXXXXX" ["rec1", "rec2"] rfl).1,
    (C8_delete_request_shapes
      { apiKey := some "keyXXXXXXXXXXXXXX", endpointUrl := some "https://api.airtable.com/v0",
        baseId := some "appXXXXXXXXXXXXXX", tableName := some "Humans" }
      "recXXXXXXXXXXXXXX" ["rec1", "rec2"] rfl).2⟩

/-- Counterexample to C9 as stated: a caller-supplied Authorization header
does override the authorization entry, because caller headers are spread
second and later entries win; at a concrete configuration with api key "k"
the dispatched Authorization value is the caller's "token xyz", not
"Bearer k". -/
theorem C9_auth_override_counterexample :
    Airtable.dispatchHeaders ⟨{ apiKey := some "k" }⟩ [("Authorization", "token xyz")] =
      [("Authorization", "token xyz")] ∧
    Airtable.getAuthHeader ⟨{ apiKey := some "k" }⟩ = [("Authorization", "Bearer k")] ∧
    ("token xyz" : String) ≠ "Bearer k" :=
  ⟨rfl, rfl, by decide⟩

/-- C9 as amended: the dispatched headers are the shallow merge of
`{Authorization: "Bearer <apiKey>"}` taken first with the caller-supplied
header map taken second, later entries winning on key collision — so a
caller-supplied Authorization entry overrides, and whenever the caller
supplies no Authorization key the dispatched Authorization entry is
`Bearer <apiKey>`. -/
theorem C9_header_merge (a : Airtable) (hs : List (String × String)) :
    Airtable.dispatchHeaders a hs =
      ("Authorization",
        (hs.lookup "Authorization").getD ("Bearer " ++ templateOpt a.options.apiKey)) ::
        hs.filter (fun kv => !(kv.1 == "Authorization")) ∧
    (hs.lookup "Authorization" = none →
      (Airtable.dispatchHeaders a hs).lookup "Authorization" =
        some ("Bearer " ++ templateOpt a.options.apiKey)) := by
  have hchar : Airtable.dispatchHeaders a hs =
      ("Authorization",
        (hs.lookup "Authorization").getD ("Bearer " ++ templateOpt a.options.apiKey)) ::
        hs.filter (fun kv => !(kv.1 == "Authorization")) := by
    simp only [Airtable.dispatchHeaders, mergeMaps, Airtable.getAuthHeader, List.map_cons,
      List.map_nil, List.nil_append, List.singleton_append]
    congr 1
    apply List.filter_congr
    intro kv _
    cases hkv : kv.1 == "Authorization" <;> simp [List.lookup, hkv]
  refine ⟨hchar, fun hnone => ?_⟩
  rw [hchar]
  simp [List.lookup, hnone]

/-- Witness for C9: with no caller-supplied Authorization entry, the
dispatched Authorization header is the bearer token of the configured api
key. -/
theorem C9_header_merge_witness :
    (List.lookup "Authorization"
      ([("Content-Type", "application/json")] : List (String × String)) = none) ∧
    (Airtable.dispatchHeaders ⟨{ apiKey := some "keyX" }⟩
        [("Content-Type", "application/json")]).lookup "Authorization" =
      some "Bearer keyX" :=
  ⟨by decide,
    (C9_header_merge ⟨{ apiKey := some "keyX" }⟩ [("Content-Type", "application/json")]).2
      (by decide)⟩

/-- C10: only the table name is percent-encoded in URL construction: the
endpoint URL, base id and every extra path segment (the record id of find,
single update, single replace, single delete) are joined verbatim, and the
record ids in the bulk-delete form body appear verbatim as well. -/
theorem C10_verbatim_segments (o : AirtableOptions) (segs : List String) (id : String)
    (ids : List String) (fm : FieldMap) (ropts : RecordOptions)
    (h : configValid o = true) :
    Airtable.getRequestUrl ⟨o⟩ [] segs = .ok (joinSep "/"
      ([o.endpointUrl.getD "", o.baseId.getD "", encodeURIComponent (o.tableName.getD "")]
        ++ segs)) ∧
    Airtable.find ⟨o⟩ id = .ok
      { url := joinSep "/" [o.endpointUrl.getD "", o.baseId.getD "",
          encodeURIComponent (o.tableName.getD ""), id] } ∧
    Airtable.updateOne ⟨o⟩ id fm ropts = .ok
      (jsonRequest
        (joinSep "/" [o.endpointUrl.getD "", o.baseId.getD "",
          encodeURIComponent (o.tableName.getD ""), id])
        "PATCH" [] (Json.objOf (("fields", Json.objOf fm) :: ropts.jsonFields))) ∧
    Airtable.replaceOne ⟨o⟩ id fm ropts = .ok
      (jsonRequest
        (joinSep "/" [o.endpointUrl.getD "", o.baseId.getD "",
          encodeURIComponent (o.tableName.getD ""), id])
        "PUT" [] (Json.objOf (("fields", Json.objOf fm) :: ropts.jsonFields))) ∧
    Airtable.deleteOne ⟨o⟩ id = .ok
      { url := joinSep "/" [o.endpointUrl.getD "", o.baseId.getD "",
          encodeURIComponent (o.tableName.getD ""), id],
        method := "DELETE",
        headers := [("Content-Type", "application/x-www-form-urlencoded")],
        body := none } ∧
    Airtable.deleteMany ⟨o⟩ ids = .ok
      { url := joinSep "/" [o.endpointUrl.getD "", o.baseId.getD "",
          encodeURIComponent (o.tableName.getD ""), ""],
        method := "DELETE",
        headers := [("Content-Type", "application/x-www-form-urlencoded")],
        body := some (joinSep "&" (ids.map fun i => "records[]=" ++ i)) } := by
  refine ⟨?_, ?_, ?_, ?_, ?_, ?_⟩
  · have hq : (if hasAnyKey ([] : Query) then ["?", stringify ([] : Query)] else []) =
        ([] : List String) := rfl
    rw [getRequestUrl_valid o h [] segs, hq, List.append_nil]
  · unfold Airtable.find
    rw [getRequestUrl_valid o h [] [id]]
    rfl
  · simp only [Airtable.updateOne, Airtable.updateOrReplace]
    rw [getRequestUrl_valid o h [] [id]]
    rfl
  · simp only [Airtable.replaceOne, Airtable.updateOrReplace]
    rw [getRequestUrl_valid o h [] [id]]
    rfl
  · unfold Airtable.deleteOne
    rw [getRequestUrl_valid o h [] [id]]
    rfl
  · unfold Airtable.deleteMany
    rw [getRequestUrl_valid o h [] [""]]
    rfl

/-- Witness for C10 at a configuration whose table name needs encoding and a
record id full of URL-significant characters: the table name becomes
`Some%20table` while the id `rec/1?x&y=z` and the bulk ids `a/b`, `c?d=e`
appear unescaped in the URL and body. -/
theorem C10_verbatim_segments_witness :
    configValid { apiKey := some "k", endpointUrl := some "https://api.airtable.com/v0",
                  baseId := some "appX", tableName := some "Some table" } = true ∧
    Airtable.find
        ⟨{ apiKey := some "k", endpointUrl := some "https://api.airtable.com/v0",
           baseId := some "appX", tableName := some "Some table" }⟩ "rec/1?x&y=z" =
      .ok { url := "https://api.airtable.com/v0/appX/Some%20table/rec/1?x&y=z" } ∧
    Airtable.deleteMany
        ⟨{ apiKey := some "k", endpointUrl := some "https://api.airtable.com/v0",
           baseId := some "appX", tableName := some "Some table" }⟩ ["a/b", "c?d=e"] =
      .ok { url := "https://api.airtable.com/v0/appX/Some%20table/",
            method := "DELETE",
            headers := [("Content-Type", "application/x-www-form-urlencoded")],
            body := some "records[]=a/b&records[]=c?d=e" } :=
  ⟨rfl,
    (C10_verbatim_segments
      { apiKey := some "k", endpointUrl := some "https://api.airtable.com/v0",
        baseId := some "appX", tableName := some "Some table" }
      [] "rec/1?x&y=z" ["a/b", "c?d=e"] [] {} rfl).2.1,
    (C10_verbatim_segments
      { apiKey := some "k", endpointUrl := some "https://api.airtable.com/v0",
        baseId := some "appX", tableName := some "Some table" }
      [] "rec/1?x&y=z" ["a/b", "c?d=e"] [] {} rfl).2.2.2.2.2⟩
